import Mathlib

/-
Shallow embedding of `src/jax_bounded_while/__init__.py` (function
`bounded_while_loop` and its inner `scan_step`), together with proofs of the
specified properties.

Modelling conventions:
- The loop carry is an arbitrary type `α` (a JAX pytree in the source).
- Boolean scalars (`jnp.asarray(False)`, the `done` flag, the result of
  `cond_fn` after the `jnp.asarray(..., dtype=bool)` coercion) are `Bool`.
- `max_steps` is a dynamically typed Python value (`PyVal`), since the source
  validates it with `isinstance(max_steps, int)`, and Python's `bool` is a
  subclass of `int`.
- A synchronous Python `raise` is `Except.error`; the deferred failure that
  `equinox.error_if` attaches to the returned value travels inside the
  returned value (`DeferredVal`) and surfaces only on `realize`.
- `lax.scan(f, init, xs=None, length=n)` applies `f` to the carry exactly `n`
  times sequentially; the stacked per-step outputs are `None` in the source
  and discarded, so the model keeps only the carry.
- `lax.cond(pred, on_true, on_false, operand)` executes exactly one of its two
  branches; it is modelled by `if`, and the number of `cond_fn` / `body_fn`
  executions is modelled by observation functions that count an execution
  exactly when the branch containing it is taken.
-/

namespace JaxBoundedWhile

universe u v

/-- A dynamically typed Python value passed as the `max_steps` argument: an
`int`, a `bool` (a subclass of `int` in Python), a `float`, or a `str`. -/
inductive PyVal where
  | int (n : Int)
  | bool (b : Bool)
  | float (q : Rat)
  | str (s : String)
deriving DecidableEq

/-- Python `isinstance(max_steps, int) and max_steps >= 0`, the validation at
the top of `bounded_while_loop`. `isinstance` accepts `bool` because `bool`
is a subclass of `int`; `False < 0` and `True < 0` are both false since their
integer values are `0` and `1`. -/
def PyVal.isNonNegInt : PyVal → Bool
  | .int n => decide (0 ≤ n)
  | .bool _ => true
  | .float _ => false
  | .str _ => false

/-- The integer value of a Python `int`/`bool` (`False = 0`, `True = 1`).
Only consulted after `isNonNegInt` has accepted the value, so the `float` and
`str` cases are unreachable. -/
def PyVal.toNat : PyVal → Nat
  | .int n => n.toNat
  | .bool b => if b then 1 else 0
  | .float _ => 0
  | .str _ => 0

/-- Python `max_steps == 0` (numeric equality, so `False == 0` is true). -/
def PyVal.eqZero : PyVal → Bool
  | .int n => decide (n = 0)
  | .bool b => !b
  | .float q => decide (q = 0)
  | .str _ => false

/-- A value as returned by the loop: the carry together with the deferred
failure (if any) that `equinox.error_if` attached to it. -/
structure DeferredVal (α : Type u) where
  value : α
  errMsg : Option String
deriving DecidableEq

/-- Models `equinox.error_if(value, pred, msg)`: returns the value unchanged,
with a deferred runtime failure attached exactly when `pred` is true. -/
def error_if {α : Type u} (value : α) (pred : Bool) (msg : String) : DeferredVal α :=
  if pred then ⟨value, some msg⟩ else ⟨value, none⟩

/-- Realizing/consuming a returned value: surfaces the deferred failure if one
was attached, otherwise yields the carry. -/
def realize {α : Type u} (v : DeferredVal α) : Except String α :=
  match v.errMsg with
  | some msg => .error msg
  | none => .ok v.value

/-- One bounded step (`scan_step` in the source), restricted to the carry
(the auxiliary per-step output is `None` and discarded by `lax.scan`).
`lax.cond` executes exactly one branch, modelled by `if`. -/
def scan_step {α : Type u} (cond_fn : α → Bool) (body_fn : α → α)
    (carry : α × Bool) : α × Bool :=
  let val := carry.1
  let done := carry.2
  let already_done : Unit → α × Bool := fun _ => carry
  let do_body : Unit → α × Bool := fun _ => (body_fn val, false)
  let stop_now : Unit → α × Bool := fun _ => (val, true)
  let not_done : Unit → α × Bool := fun _ =>
    let continue_ := cond_fn val
    if continue_ then do_body () else stop_now ()
  if done then already_done () else not_done ()

/-- Models `lax.scan(f, init, xs=None, length=n)` restricted to the carry:
apply `f` exactly `n` times sequentially. -/
def lax_scan {σ : Type u} (f : σ → σ) : Nat → σ → σ
  | 0, s => s
  | n + 1, s => lax_scan f n (f s)

/-- The message of the synchronous configuration error (`ValueError`). -/
def config_msg : String := "max_steps must be a non-negative Python int."

/-- The message attached by the overflow guard (`equinox.error_if`). -/
def overflow_msg : String :=
  "bounded_while_loop exceeded max_steps without cond_fn becoming False."

/-- `bounded_while_loop` from the source. `Except.error` is the synchronous
`raise ValueError`; the overflow failure is deferred, travelling inside the
returned `DeferredVal`. -/
def bounded_while_loop {α : Type u} (cond_fn : α → Bool) (body_fn : α → α)
    (init_val : α) (max_steps : PyVal) : Except String (DeferredVal α) :=
  if !max_steps.isNonNegInt then .error config_msg
  else if max_steps.eqZero then .ok ⟨init_val, none⟩
  else
    let init_carry : α × Bool := (init_val, false)
    let fin := lax_scan (scan_step cond_fn body_fn) max_steps.toNat init_carry
    let final_val := error_if fin.1 (!fin.2) overflow_msg
    .ok final_val

/-- Number of `cond_fn` executions in one scan step: `lax.cond(done, ...)`
executes exactly one branch, and `cond_fn` runs only inside `not_done`. -/
def step_cond_calls {α : Type u} (carry : α × Bool) : Nat :=
  if carry.2 then 0 else 1

/-- Number of `body_fn` executions in one scan step: `body_fn` runs only in
the `do_body` branch, taken when not done and `cond_fn` returned true. -/
def step_body_calls {α : Type u} (cond_fn : α → Bool) (carry : α × Bool) : Nat :=
  if carry.2 then 0 else if cond_fn carry.1 then 1 else 0

/-- Total `body_fn` executions over an `n`-step scan starting from `s`. -/
def scan_body_calls {α : Type u} (cond_fn : α → Bool) (body_fn : α → α) :
    Nat → α × Bool → Nat
  | 0, _ => 0
  | n + 1, s =>
    step_body_calls cond_fn s +
      scan_body_calls cond_fn body_fn n (scan_step cond_fn body_fn s)

/-- Total `cond_fn` executions over an `n`-step scan starting from `s`. -/
def scan_cond_calls {α : Type u} (cond_fn : α → Bool) (body_fn : α → α) :
    Nat → α × Bool → Nat
  | 0, _ => 0
  | n + 1, s =>
    step_cond_calls s +
      scan_cond_calls cond_fn body_fn n (scan_step cond_fn body_fn s)

/-- `body_fn` executions in one call of `bounded_while_loop`; the validation
failure and `max_steps == 0` paths return before the scan is built. -/
def loop_body_calls {α : Type u} (cond_fn : α → Bool) (body_fn : α → α)
    (init_val : α) (max_steps : PyVal) : Nat :=
  if !max_steps.isNonNegInt then 0
  else if max_steps.eqZero then 0
  else scan_body_calls cond_fn body_fn max_steps.toNat (init_val, false)

/-- `cond_fn` executions in one call of `bounded_while_loop`. -/
def loop_cond_calls {α : Type u} (cond_fn : α → Bool) (body_fn : α → α)
    (init_val : α) (max_steps : PyVal) : Nat :=
  if !max_steps.isNonNegInt then 0
  else if max_steps.eqZero then 0
  else scan_cond_calls cond_fn body_fn max_steps.toNat (init_val, false)

/- Basic lemmas about the scan. -/

lemma scan_step_done {α : Type u} (cond_fn : α → Bool) (body_fn : α → α) (val : α) :
    scan_step cond_fn body_fn (val, true) = (val, true) := rfl

lemma scan_step_go {α : Type u} (cond_fn : α → Bool) (body_fn : α → α) (val : α)
    (h : cond_fn val = true) :
    scan_step cond_fn body_fn (val, false) = (body_fn val, false) := by
  simp [scan_step, h]

lemma scan_step_stop {α : Type u} (cond_fn : α → Bool) (body_fn : α → α) (val : α)
    (h : cond_fn val = false) :
    scan_step cond_fn body_fn (val, false) = (val, true) := by
  simp [scan_step, h]

lemma lax_scan_eq_iterate {σ : Type u} (f : σ → σ) (n : Nat) (s : σ) :
    lax_scan f n s = f^[n] s := by
  induction n generalizing s with
  | zero => rfl
  | succ n ih => rw [lax_scan, ih, Function.iterate_succ_apply]

lemma iterate_step_done {α : Type u} (cond_fn : α → Bool) (body_fn : α → α)
    (m : Nat) (val : α) :
    (scan_step cond_fn body_fn)^[m] (val, true) = (val, true) := by
  induction m with
  | zero => rfl
  | succ m ih => rw [Function.iterate_succ_apply, scan_step_done, ih]

/-- While the loop is still active (the condition has held at every state seen
so far), the scan state after `j` steps is `(body_fn^[j] init_val, false)`. -/
lemma iterate_step_active {α : Type u} (cond_fn : α → Bool) (body_fn : α → α)
    (init_val : α) :
    ∀ j, (∀ i, i < j → cond_fn (body_fn^[i] init_val) = true) →
      (scan_step cond_fn body_fn)^[j] (init_val, false) =
        (body_fn^[j] init_val, false) := by
  intro j
  induction j with
  | zero => intro _; rfl
  | succ j ih =>
    intro h
    rw [Function.iterate_succ_apply', ih (fun i hi => h i (Nat.lt_succ_of_lt hi)),
      scan_step_go _ _ _ (h j (Nat.lt_succ_self j)), Function.iterate_succ_apply']

/-- If the condition first fails at the state reached after `k` body
applications and the scan is longer than `k`, the scan ends in the terminated
state holding `body_fn^[k] init_val`. -/
lemma iterate_step_terminates {α : Type u} (cond_fn : α → Bool) (body_fn : α → α)
    (init_val : α) (k n : Nat)
    (hk : ∀ i, i < k → cond_fn (body_fn^[i] init_val) = true)
    (hkf : cond_fn (body_fn^[k] init_val) = false) (hkn : k < n) :
    (scan_step cond_fn body_fn)^[n] (init_val, false) =
      (body_fn^[k] init_val, true) := by
  have hsplit : n - (k + 1) + (k + 1) = n := Nat.sub_add_cancel hkn
  calc (scan_step cond_fn body_fn)^[n] (init_val, false)
      = (scan_step cond_fn body_fn)^[n - (k + 1)]
          ((scan_step cond_fn body_fn)^[k + 1] (init_val, false)) := by
        rw [← Function.iterate_add_apply, hsplit]
    _ = (body_fn^[k] init_val, true) := by
        rw [Function.iterate_succ_apply', iterate_step_active cond_fn body_fn init_val k hk,
          scan_step_stop _ _ _ hkf, iterate_step_done]

/-- Unfolding of the loop on a valid, positive integer bound. -/
lemma bounded_while_loop_int_pos {α : Type u} (cond_fn : α → Bool) (body_fn : α → α)
    (init_val : α) (n : Nat) (hn : 0 < n) :
    bounded_while_loop cond_fn body_fn init_val (.int n) =
      .ok (error_if ((scan_step cond_fn body_fn)^[n] (init_val, false)).1
        (!((scan_step cond_fn body_fn)^[n] (init_val, false)).2) overflow_msg) := by
  have h0 : (n : Int) ≠ 0 := by
    exact_mod_cast Nat.pos_iff_ne_zero.mp hn
  simp [bounded_while_loop, PyVal.isNonNegInt, PyVal.eqZero, PyVal.toNat, h0,
    lax_scan_eq_iterate]

/-- C1 (amended): if `cond_fn` first becomes false after exactly `k`
applications of `body_fn` starting from `init_val` and `k ≤ max_steps`, then
`bounded_while_loop` returns the carry `body_fn^[k] init_val`; no error is
attached when `k < max_steps` (and in the trivial case `k = max_steps = 0`),
but when `0 < k = max_steps` the scan exhausts its steps before re-checking
the condition, so the overflow guard attaches the deferred error to the
(otherwise correct) carry. -/
theorem bounded_loop_first_false {α : Type u} (cond_fn : α → Bool) (body_fn : α → α)
    (init_val : α) (k n : Nat)
    (hk : ∀ i, i < k → cond_fn (body_fn^[i] init_val) = true)
    (hkf : cond_fn (body_fn^[k] init_val) = false) (hkn : k ≤ n) :
    bounded_while_loop cond_fn body_fn init_val (.int n) =
      .ok ⟨body_fn^[k] init_val,
        if k < n ∨ n = 0 then none else some overflow_msg⟩ := by
  rcases Nat.lt_or_ge 0 n with hn | hn
  · rw [bounded_while_loop_int_pos cond_fn body_fn init_val n hn]
    rcases Nat.lt_or_ge k n with hlt | hge
    · rw [iterate_step_terminates cond_fn body_fn init_val k n hk hkf hlt]
      simp [error_if, hlt]
    · have hkeq : k = n := Nat.le_antisymm hkn hge
      subst hkeq
      rw [iterate_step_active cond_fn body_fn init_val k hk]
      have hcond : ¬(k < k ∨ k = 0) := by omega
      rw [if_neg hcond]
      simp [error_if]
  · have hn0 : n = 0 := Nat.le_zero.mp hn
    have hk0 : k = 0 := by omega
    subst hn0; subst hk0
    simp [bounded_while_loop, PyVal.isNonNegInt, PyVal.eqZero]

/-- C1 (counterexample to the claim as stated): with `cond x = x < 1`,
`body x = x + 1`, `init = 0`, the condition first becomes false after exactly
`k = 1` body applications and `k ≤ max_steps = 1`; the claim says the result
is `1` with no error, but the code attaches the deferred overflow error, so
realizing the result fails. -/
theorem bounded_loop_first_false_cex :
    (fun x : Nat => decide (x < 1)) ((fun x : Nat => x + 1)^[0] 0) = true ∧
    (fun x : Nat => decide (x < 1)) ((fun x : Nat => x + 1)^[1] 0) = false ∧
    bounded_while_loop (fun x : Nat => decide (x < 1)) (fun x => x + 1) 0 (.int 1) =
      .ok ⟨1, some overflow_msg⟩ ∧
    realize (⟨1, some overflow_msg⟩ : DeferredVal Nat) = .error overflow_msg :=
  ⟨rfl, rfl, rfl, rfl⟩

/-- C1 witness: `cond x = x < 5`, `body x = x + 1`, `init = 0`, `k = 5`,
`max_steps = 10`: the result is the clean carry `5`. -/
theorem bounded_loop_first_false_witness :
    bounded_while_loop (fun x : Nat => decide (x < 5)) (fun x => x + 1) 0 (.int 10) =
      .ok ⟨5, none⟩ :=
  bounded_loop_first_false (fun x : Nat => decide (x < 5)) (fun x => x + 1) 0 5 10
    (by decide) (by decide) (by decide)

/-- C2 (amended, requiring `max_steps ≥ 1`): if `cond_fn` holds at every state
the scan inspects (so the done latch is still false after the run), the loop
still returns `.ok` (the failure is deferred, not raised at construction), the
carried value has the overflow message attached, realizing it fails with that
message, and the message mentions both "exceeded" and "max_steps". -/
theorem bounded_loop_overflow {α : Type u} (cond_fn : α → Bool) (body_fn : α → α)
    (init_val : α) (n : Nat) (hn : 0 < n)
    (hc : ∀ i, i < n → cond_fn (body_fn^[i] init_val) = true) :
    bounded_while_loop cond_fn body_fn init_val (.int n) =
      .ok ⟨body_fn^[n] init_val, some overflow_msg⟩ ∧
    realize (⟨body_fn^[n] init_val, some overflow_msg⟩ : DeferredVal α) =
      .error overflow_msg ∧
    (∃ p s, overflow_msg = p ++ "exceeded" ++ s) ∧
    (∃ p s, overflow_msg = p ++ "max_steps" ++ s) := by
  refine ⟨?_, rfl,
    ⟨"bounded_while_loop ", " max_steps without cond_fn becoming False.", rfl⟩,
    ⟨"bounded_while_loop exceeded ", " without cond_fn becoming False.", rfl⟩⟩
  rw [bounded_while_loop_int_pos cond_fn body_fn init_val n hn,
    iterate_step_active cond_fn body_fn init_val n hc]
  simp [error_if]

/-- C2 (counterexample to the claim as stated, at `max_steps = 0`): with a
condition that is always true, `cond` vacuously remains true for all `0`
applications of `body` (and the done latch of the empty run is still false),
yet the loop short-circuits, returns `init` with no deferred error, and
realizing the result succeeds rather than raising. -/
theorem bounded_loop_overflow_cex :
    (lax_scan (scan_step (fun _ : Nat => true) (fun x => x + 1)) 0 (0, false)).2
      = false ∧
    bounded_while_loop (fun _ : Nat => true) (fun x => x + 1) 0 (.int 0) =
      .ok ⟨0, none⟩ ∧
    realize (⟨0, none⟩ : DeferredVal Nat) = .ok 0 :=
  ⟨rfl, rfl, rfl⟩

/-- C2 witness: an always-true condition with `max_steps = 3` yields a value
whose realization fails with the overflow message. -/
theorem bounded_loop_overflow_witness :
    bounded_while_loop (fun _ : Nat => true) (fun x => x + 1) 0 (.int 3) =
      .ok ⟨(fun x : Nat => x + 1)^[3] 0, some overflow_msg⟩ ∧
    realize (⟨(fun x : Nat => x + 1)^[3] 0, some overflow_msg⟩ : DeferredVal Nat) =
      .error overflow_msg ∧
    (∃ p s, overflow_msg = p ++ "exceeded" ++ s) ∧
    (∃ p s, overflow_msg = p ++ "max_steps" ++ s) :=
  bounded_loop_overflow (fun _ => true) (fun x => x + 1) 0 3 (by decide)
    (fun _ _ => rfl)

/-- C3: the one-step transition contract of `scan_step`: when done, the
augmented state passes through unchanged and neither `cond_fn` nor `body_fn`
is executed; when not done, `cond_fn` is executed exactly once, and the step
yields `(body_fn val, false)` when it returns true, and `(val, true)` with no
`body_fn` execution when it returns false. -/
theorem scan_step_contract {α : Type u} (cond_fn : α → Bool) (body_fn : α → α)
    (val : α) :
    scan_step cond_fn body_fn (val, true) = (val, true) ∧
    step_cond_calls ((val, true) : α × Bool) = 0 ∧
    step_body_calls cond_fn (val, true) = 0 ∧
    (cond_fn val = true →
      scan_step cond_fn body_fn (val, false) = (body_fn val, false)) ∧
    (cond_fn val = false →
      scan_step cond_fn body_fn (val, false) = (val, true) ∧
      step_body_calls cond_fn (val, false) = 0) ∧
    step_cond_calls ((val, false) : α × Bool) = 1 := by
  refine ⟨rfl, rfl, rfl, fun h => scan_step_go cond_fn body_fn val h,
    fun h => ⟨scan_step_stop cond_fn body_fn val h, ?_⟩, rfl⟩
  simp [step_body_calls, h]

/-- C3 witness: the three branches of the contract at concrete inputs, with
`cond x = x < 5` and `body x = x + 1`. -/
theorem scan_step_contract_witness :
    scan_step (fun x : Nat => decide (x < 5)) (fun x => x + 1) (3, false) =
      (4, false) ∧
    scan_step (fun x : Nat => decide (x < 5)) (fun x => x + 1) (7, false) =
      (7, true) ∧
    step_body_calls (fun x : Nat => decide (x < 5)) ((7, false) : Nat × Bool) = 0 ∧
    scan_step (fun x : Nat => decide (x < 5)) (fun x => x + 1) (7, true) =
      (7, true) :=
  ⟨(scan_step_contract (fun x : Nat => decide (x < 5)) (fun x => x + 1) 3).2.2.2.1
      (by decide),
    ((scan_step_contract (fun x : Nat => decide (x < 5)) (fun x => x + 1) 7).2.2.2.2.1
      (by decide)).1,
    ((scan_step_contract (fun x : Nat => decide (x < 5)) (fun x => x + 1) 7).2.2.2.2.1
      (by decide)).2,
    (scan_step_contract (fun x : Nat => decide (x < 5)) (fun x => x + 1) 7).1⟩

/-- C4: with `max_steps = 0` the loop short-circuits before building the scan:
it returns `init_val` exactly, with no error attached, and `cond_fn` and
`body_fn` are executed zero times. -/
theorem bounded_loop_zero {α : Type u} (cond_fn : α → Bool) (body_fn : α → α)
    (init_val : α) :
    bounded_while_loop cond_fn body_fn init_val (.int 0) = .ok ⟨init_val, none⟩ ∧
    loop_cond_calls cond_fn body_fn init_val (.int 0) = 0 ∧
    loop_body_calls cond_fn body_fn init_val (.int 0) = 0 :=
  ⟨rfl, rfl, rfl⟩

/-- C5: whenever `max_steps` fails Python's `isinstance(max_steps, int) and
max_steps >= 0` check, the loop raises the `ValueError` synchronously
(`Except.error`, not a deferred failure), `cond_fn` and `body_fn` are executed
zero times, and the message states the non-negative-integer requirement. -/
theorem bounded_loop_invalid_max_steps {α : Type u} (cond_fn : α → Bool)
    (body_fn : α → α) (init_val : α) (m : PyVal)
    (hm : m.isNonNegInt = false) :
    bounded_while_loop cond_fn body_fn init_val m = .error config_msg ∧
    loop_cond_calls cond_fn body_fn init_val m = 0 ∧
    loop_body_calls cond_fn body_fn init_val m = 0 ∧
    (∃ p s, config_msg = p ++ "non-negative" ++ s) := by
  refine ⟨?_, ?_, ?_, ⟨"max_steps must be a ", " Python int.", rfl⟩⟩ <;>
    simp [bounded_while_loop, loop_cond_calls, loop_body_calls, hm]

/-- C5 witness: the failing inputs named by the claim — `-1`, `1.5` and the
string `"3"` — each raise the configuration error. -/
theorem bounded_loop_invalid_max_steps_witness :
    bounded_while_loop (fun x : Nat => decide (x < 1)) (fun x => x + 1) 0
      (.int (-1)) = .error config_msg ∧
    bounded_while_loop (fun x : Nat => decide (x < 1)) (fun x => x + 1) 0
      (.float (3 / 2)) = .error config_msg ∧
    bounded_while_loop (fun x : Nat => decide (x < 1)) (fun x => x + 1) 0
      (.str "3") = .error config_msg ∧
    loop_body_calls (fun x : Nat => decide (x < 1)) (fun x => x + 1) 0
      (.int (-1)) = 0 :=
  ⟨(bounded_loop_invalid_max_steps _ _ 0 (.int (-1)) (by decide)).1,
    (bounded_loop_invalid_max_steps _ _ 0 (.float (3 / 2)) rfl).1,
    (bounded_loop_invalid_max_steps _ _ 0 (.str "3") rfl).1,
    (bounded_loop_invalid_max_steps (fun x : Nat => decide (x < 1)) (fun x => x + 1)
      0 (.int (-1)) (by decide)).2.2.1⟩

/- Counting lemmas for C6. -/

lemma scan_body_calls_done {α : Type u} (cond_fn : α → Bool) (body_fn : α → α)
    (j : Nat) (val : α) :
    scan_body_calls cond_fn body_fn j (val, true) = 0 := by
  induction j with
  | zero => rfl
  | succ j ih =>
    rw [scan_body_calls, scan_step_done, ih]
    simp [step_body_calls]

lemma scan_body_calls_active_le {α : Type u} (cond_fn : α → Bool) (body_fn : α → α)
    (init_val : α) (k : Nat)
    (hk : ∀ i, i < k → cond_fn (body_fn^[i] init_val) = true)
    (hkf : cond_fn (body_fn^[k] init_val) = false) :
    ∀ n j, j ≤ k →
      scan_body_calls cond_fn body_fn n (body_fn^[j] init_val, false) ≤ k - j := by
  intro n
  induction n with
  | zero => intro j _; exact Nat.zero_le _
  | succ n ih =>
    intro j hj
    rcases Nat.lt_or_ge j k with hjk | hjk
    · rw [scan_body_calls, scan_step_go _ _ _ (hk j hjk),
        ← Function.iterate_succ_apply' body_fn j init_val]
      have h1 : step_body_calls cond_fn (body_fn^[j] init_val, false) = 1 := by
        simp [step_body_calls, hk j hjk]
      rw [h1]
      have h2 := ih (j + 1) hjk
      simp only [Nat.succ_eq_add_one] at h2 ⊢
      omega
    · have hjeq : j = k := Nat.le_antisymm hj hjk
      subst hjeq
      rw [scan_body_calls, scan_step_stop _ _ _ hkf, scan_body_calls_done]
      simp [step_body_calls, hkf]

/-- C6: if `cond_fn` first becomes false after exactly `k` body applications,
then a call of `bounded_while_loop` executes `body_fn` at most `k` times, for
every `max_steps` value whatsoever; moreover from any terminated state the
remaining scan steps execute `body_fn` zero times. -/
theorem bounded_loop_body_calls_le {α : Type u} (cond_fn : α → Bool)
    (body_fn : α → α) (init_val : α) (k : Nat) (m : PyVal)
    (hk : ∀ i, i < k → cond_fn (body_fn^[i] init_val) = true)
    (hkf : cond_fn (body_fn^[k] init_val) = false) :
    loop_body_calls cond_fn body_fn init_val m ≤ k ∧
    (∀ val : α, ∀ j, scan_body_calls cond_fn body_fn j (val, true) = 0) := by
  refine ⟨?_, fun val j => scan_body_calls_done cond_fn body_fn j val⟩
  unfold loop_body_calls
  rcases hval : m.isNonNegInt with _ | _
  · simp
  · rcases hz : m.eqZero with _ | _
    · simp only [Bool.not_true, Bool.false_eq_true, if_false, hz, if_neg]
      have h0 := scan_body_calls_active_le cond_fn body_fn init_val k hk hkf
        m.toNat 0 (Nat.zero_le k)
      simpa using h0
    · simp

/-- C6 witness: `cond x = x < 2`, `body x = x + 1`, `init = 0` (so `k = 2`)
with `max_steps = 10`: at most 2 body executions. -/
theorem bounded_loop_body_calls_le_witness :
    loop_body_calls (fun x : Nat => decide (x < 2)) (fun x => x + 1) 0
      (.int 10) ≤ 2 :=
  (bounded_loop_body_calls_le (fun x : Nat => decide (x < 2)) (fun x => x + 1) 0 2
    (.int 10) (by decide) (by decide)).1

/-- C7: the done latch is monotonic and freezing: a terminated augmented state
passes through `scan_step` unchanged (so `true → false` transitions are
impossible), and it stays unchanged for any number of further scan steps. -/
theorem done_latch_monotone {α : Type u} (cond_fn : α → Bool) (body_fn : α → α) :
    (∀ s : α × Bool, s.2 = true → scan_step cond_fn body_fn s = s) ∧
    (∀ s : α × Bool, s.2 = true → (scan_step cond_fn body_fn s).2 = true) ∧
    (∀ val : α, ∀ m : Nat,
      lax_scan (scan_step cond_fn body_fn) m (val, true) = (val, true)) := by
  have hfix : ∀ s : α × Bool, s.2 = true → scan_step cond_fn body_fn s = s := by
    intro s hs
    obtain ⟨val, d⟩ := s
    cases d with
    | false => exact absurd hs (by simp)
    | true => rfl
  refine ⟨hfix, fun s hs => by rw [hfix s hs, hs], fun val m => ?_⟩
  rw [lax_scan_eq_iterate, iterate_step_done]

/-- C7 witness: a terminated state with carry `7` is left unchanged by one
step and by five further steps. -/
theorem done_latch_monotone_witness :
    scan_step (fun x : Nat => decide (x < 5)) (fun x => x + 1) (7, true) =
      (7, true) ∧
    (scan_step (fun x : Nat => decide (x < 5)) (fun x => x + 1) (7, true)).2 =
      true ∧
    lax_scan (scan_step (fun x : Nat => decide (x < 5)) (fun x => x + 1)) 5
      (7, true) = (7, true) :=
  ⟨(done_latch_monotone (fun x : Nat => decide (x < 5)) (fun x => x + 1)).1
      (7, true) rfl,
    (done_latch_monotone (fun x : Nat => decide (x < 5)) (fun x => x + 1)).2.1
      (7, true) rfl,
    (done_latch_monotone (fun x : Nat => decide (x < 5)) (fun x => x + 1)).2.2 7 5⟩

/-- C8: `bounded_while_loop` is a pure function of its four inputs: two
invocations with (extensionally) equal `cond_fn`, `body_fn`, `init_val` and
`max_steps` return equal results — the embedding has no other state to read
or write. -/
theorem bounded_loop_deterministic {α : Type u} (cond₁ cond₂ : α → Bool)
    (body₁ body₂ : α → α) (init₁ init₂ : α) (m₁ m₂ : PyVal)
    (hc : ∀ x, cond₁ x = cond₂ x) (hb : ∀ x, body₁ x = body₂ x)
    (hi : init₁ = init₂) (hm : m₁ = m₂) :
    bounded_while_loop cond₁ body₁ init₁ m₁ =
      bounded_while_loop cond₂ body₂ init₂ m₂ := by
  rw [funext hc, funext hb, hi, hm]

/-- C8 witness: two syntactically different but extensionally equal condition
functions (`x < 2` and `x ≤ 1`) give equal results. -/
theorem bounded_loop_deterministic_witness :
    bounded_while_loop (fun x : Nat => decide (x < 2)) (fun x => x + 1) 0
      (.int 5) =
    bounded_while_loop (fun x : Nat => decide (x ≤ 1)) (fun x => x + 1) 0
      (.int 5) :=
  bounded_loop_deterministic (fun x : Nat => decide (x < 2))
    (fun x : Nat => decide (x ≤ 1)) (fun x => x + 1) (fun x => x + 1) 0 0
    (.int 5) (.int 5) (fun _ => decide_eq_decide.mpr Nat.lt_succ_iff)
    (fun _ => rfl) rfl rfl

/- Fallible embedding for C9: `cond_fn` and `body_fn` may raise. The source
has no `try`/`except`, so in the embedding every call site propagates an
`Except.error` outward unchanged. -/

/-- How a call of the loop can fail synchronously: the configuration
`ValueError` raised by the validation, or an exception object `e` raised
inside `cond_fn`/`body_fn` and propagated as-is. -/
inductive RunError (ε : Type v) where
  | config (msg : String)
  | raised (e : ε)
deriving DecidableEq

/-- `scan_step` with fallible user functions: identical branch structure to
`scan_step`, with each call site propagating errors outward (no handler). -/
def scan_stepE {α : Type u} {ε : Type v} (cond_fn : α → Except ε Bool)
    (body_fn : α → Except ε α) (carry : α × Bool) : Except ε (α × Bool) :=
  if carry.2 then .ok carry
  else
    match cond_fn carry.1 with
    | .error e => .error e
    | .ok continue_ =>
      if continue_ then
        match body_fn carry.1 with
        | .error e => .error e
        | .ok v => .ok (v, false)
      else .ok (carry.1, true)

/-- `lax.scan` over a fallible step: stops at (and returns) the first error. -/
def lax_scanE {σ : Type u} {ε : Type v} (f : σ → Except ε σ) :
    Nat → σ → Except ε σ
  | 0, s => .ok s
  | n + 1, s =>
    match f s with
    | .error e => .error e
    | .ok s2 => lax_scanE f n s2

/-- `bounded_while_loop` with fallible user functions; the structure is that
of `bounded_while_loop`, with user-function errors propagated unchanged. -/
def bounded_while_loopE {α : Type u} {ε : Type v} (cond_fn : α → Except ε Bool)
    (body_fn : α → Except ε α) (init_val : α) (max_steps : PyVal) :
    Except (RunError ε) (DeferredVal α) :=
  if !max_steps.isNonNegInt then .error (.config config_msg)
  else if max_steps.eqZero then .ok ⟨init_val, none⟩
  else
    match lax_scanE (scan_stepE cond_fn body_fn) max_steps.toNat
        (init_val, false) with
    | .error e => .error (.raised e)
    | .ok fin => .ok (error_if fin.1 (!fin.2) overflow_msg)

lemma lax_scanE_zero {σ : Type u} {ε : Type v} (f : σ → Except ε σ) (s : σ) :
    lax_scanE f 0 s = .ok s := rfl

lemma lax_scanE_succ {σ : Type u} {ε : Type v} (f : σ → Except ε σ)
    (n : Nat) (s : σ) :
    lax_scanE f (n + 1) s =
      match f s with
      | .error e => .error e
      | .ok s2 => lax_scanE f n s2 := rfl

lemma lax_scanE_add {σ : Type u} {ε : Type v} (f : σ → Except ε σ)
    (a b : Nat) (s : σ) :
    lax_scanE f (a + b) s =
      match lax_scanE f a s with
      | .error e => .error e
      | .ok s2 => lax_scanE f b s2 := by
  induction a generalizing s with
  | zero => rw [Nat.zero_add, lax_scanE_zero]
  | succ a ih =>
    rw [Nat.succ_add, lax_scanE_succ, lax_scanE_succ]
    cases f s with
    | error e => rfl
    | ok s2 => exact ih s2

/-- C9: if the run reaches (after `i` of the `max_steps` scan steps) a still
active state `s` at which `cond_fn` raises `e`, or at which `cond_fn` says to
continue and `body_fn` raises `e`, then the whole call of the loop fails with
exactly that `e` — nothing is caught, wrapped or transformed. -/
theorem bounded_loop_error_propagates {α : Type u} {ε : Type v}
    (cond_fn : α → Except ε Bool) (body_fn : α → Except ε α)
    (init_val s : α) (e : ε) (i n : Nat) (hin : i < n)
    (hrun : lax_scanE (scan_stepE cond_fn body_fn) i (init_val, false) =
      .ok (s, false))
    (herr : cond_fn s = .error e ∨
      (cond_fn s = .ok true ∧ body_fn s = .error e)) :
    bounded_while_loopE cond_fn body_fn init_val (.int n) =
      .error (.raised e) := by
  have hstep : scan_stepE cond_fn body_fn (s, false) = .error e := by
    rcases herr with hce | ⟨hct, hbe⟩
    · simp [scan_stepE, hce]
    · simp [scan_stepE, hct, hbe]
  have hn : 0 < n := Nat.lt_of_le_of_lt (Nat.zero_le i) hin
  have h0 : (n : Int) ≠ 0 := by
    exact_mod_cast Nat.pos_iff_ne_zero.mp hn
  have hscan : lax_scanE (scan_stepE cond_fn body_fn) n (init_val, false) =
      .error e := by
    have hsplit : i + (n - i) = n := Nat.add_sub_cancel' (Nat.le_of_lt hin)
    have hpos : 0 < n - i := Nat.sub_pos_of_lt hin
    obtain ⟨d, hd⟩ : ∃ d, n - i = d + 1 :=
      ⟨n - i - 1, by omega⟩
    rw [← hsplit, lax_scanE_add, hrun, hd]
    show lax_scanE (scan_stepE cond_fn body_fn) (d + 1) (s, false) = .error e
    rw [lax_scanE_succ, hstep]
  simp [bounded_while_loopE, PyVal.isNonNegInt, PyVal.eqZero, PyVal.toNat, h0,
    hscan]

/-- C9 witness: a condition that raises `"boom"` at the initial state makes
the whole call fail with exactly that error. -/
theorem bounded_loop_error_propagates_witness :
    bounded_while_loopE (fun _ : Nat => (.error "boom" : Except String Bool))
      (fun x => .ok (x + 1)) 0 (.int 2) = .error (.raised "boom") :=
  bounded_loop_error_propagates (fun _ : Nat => (.error "boom" : Except String Bool))
    (fun x => .ok (x + 1)) 0 0 "boom" 0 2 (by decide) rfl (Or.inl rfl)

/-- C10: Python's `bool` passes the `isinstance(max_steps, int)` validation,
so `max_steps = True` raises no configuration error and behaves exactly as
`max_steps = 1`, and `max_steps = False` compares equal to `0` and behaves as
`max_steps = 0`: it returns `init_val` unchanged with `cond_fn` and `body_fn`
never executed. -/
theorem bounded_loop_bool_max_steps {α : Type u} (cond_fn : α → Bool)
    (body_fn : α → α) (init_val : α) :
    bounded_while_loop cond_fn body_fn init_val (.bool true) =
      bounded_while_loop cond_fn body_fn init_val (.int 1) ∧
    (∃ r, bounded_while_loop cond_fn body_fn init_val (.bool true) = .ok r) ∧
    bounded_while_loop cond_fn body_fn init_val (.bool false) =
      bounded_while_loop cond_fn body_fn init_val (.int 0) ∧
    bounded_while_loop cond_fn body_fn init_val (.bool false) =
      .ok ⟨init_val, none⟩ ∧
    loop_cond_calls cond_fn body_fn init_val (.bool false) = 0 ∧
    loop_body_calls cond_fn body_fn init_val (.bool false) = 0 :=
  ⟨rfl, ⟨_, rfl⟩, rfl, rfl, rfl, rfl⟩

end JaxBoundedWhile
